import Mathlib

/-!
Shallow embedding of the mcp-zotero server (src/index.ts): the zod argument
schemas, the five tool handlers, and the response formatters, together with
proofs about the formatting and dispatch behaviour.

JavaScript semantics modelled explicitly:
  * `x || d` on strings: `jsOr` (empty string is falsy);
  * `x || null` on strings: `jsOrNull`;
  * `Array.prototype.join(sep)`: `jsJoin`;
  * `String.prototype.trim()`: `jsTrim` (drop leading/trailing whitespace);
  * `JSON.stringify` field emission: `undefined`-valued properties are
    omitted, `null`-valued properties are kept, modelled by the
    `serialize*` functions returning association lists of `JVal`.
-/

namespace McpZotero

/-- JS `x || d` for a possibly-undefined string `x`: both `undefined` and the
empty string are falsy and yield the default. -/
def jsOr (o : Option String) (d : String) : String :=
  match o with
  | some s => if s = "" then d else s
  | none => d

/-- JS `x || null` for a possibly-undefined string: `none` models JS `null`
in the result. -/
def jsOrNull (o : Option String) : Option String :=
  match o with
  | some s => if s = "" then none else some s
  | none => none

/-- JS `Array.prototype.join` with a separator. -/
def jsJoin (sep : String) : List String → String
  | [] => ""
  | [s] => s
  | s :: rest => s ++ sep ++ jsJoin sep rest

/-- Drop leading and trailing whitespace characters of a character list. -/
def trimChars (cs : List Char) : List Char :=
  ((cs.dropWhile Char.isWhitespace).reverse.dropWhile Char.isWhitespace).reverse

/-- JS `String.prototype.trim()`. -/
def jsTrim (s : String) : String :=
  String.mk (trimChars s.data)

/-- `ZoteroCreator` from src/types/zotero-types.ts: all fields optional. -/
structure ZoteroCreator where
  firstName : Option String
  lastName : Option String
  name : Option String
  creatorType : Option String
deriving DecidableEq, Repr

/-- `ZoteroTag` from src/types/zotero-types.ts. -/
structure ZoteroTag where
  tag : String
  type : Option Int
deriving DecidableEq, Repr

/-- The flat item record the handlers read off `response.getData()` entries:
every descriptive field is optional (the remote shape is not statically
guaranteed). -/
structure ZoteroItem where
  key : Option String
  itemType : Option String
  title : Option String
  creators : Option (List ZoteroCreator)
  abstractNote : Option String
  date : Option String
  DOI : Option String
  url : Option String
  tags : Option (List ZoteroTag)
  collections : Option (List String)
  dateAdded : Option String
  publicationTitle : Option String
deriving DecidableEq, Repr

/-- An item record with every optional field absent. -/
def emptyItem : ZoteroItem :=
  ⟨none, none, none, none, none, none, none, none, none, none, none, none⟩

/-- One creator's display name:
`` `${c.firstName || ""} ${c.lastName || ""}`.trim() ``. -/
def creatorName (c : ZoteroCreator) : String :=
  jsTrim (c.firstName.getD "" ++ " " ++ c.lastName.getD "")

/-- The shared authors expression of all four formatters:
`item.creators?.map(...).filter(Boolean).join(", ") || "No authors listed"`.
The argument is `none` when `item.creators` is undefined (the optional chain
makes the whole expression undefined, hence falsy). -/
def formatAuthors (creators : Option (List ZoteroCreator)) : String :=
  match creators with
  | none => "No authors listed"
  | some cs =>
    if jsJoin ", " ((cs.map creatorName).filter (fun n => decide (n ≠ ""))) = ""
    then "No authors listed"
    else jsJoin ", " ((cs.map creatorName).filter (fun n => decide (n ≠ "")))

/-- The author rule as the specification words it: join first and last name
with a single space and trim, discard creators whose joined-and-trimmed name
is empty, join the remainder with `", "`, and substitute
`"No authors listed"` when no names remain. -/
def specAuthors (cs : List ZoteroCreator) : String :=
  if (cs.map creatorName).filter (fun n => decide (n ≠ "")) = []
  then "No authors listed"
  else jsJoin ", " ((cs.map creatorName).filter (fun n => decide (n ≠ "")))

/-- Output record of the `get_collection_items` formatter. `doi`, `url` and
`publicationTitle` are `item.X || null`, so they carry an `Option`. -/
structure FormattedCollectionItem where
  title : String
  authors : String
  date : String
  key : String
  itemType : String
  abstractNote : String
  tags : List String
  doi : Option String
  url : Option String
  publicationTitle : Option String
deriving DecidableEq, Repr

/-- Output record of the `get_item_details` formatter: every scalar field is
defaulted to a placeholder string, `tags` and `collections` to `[]`. -/
structure FormattedItemDetails where
  title : String
  authors : String
  date : String
  abstract : String
  publicationTitle : String
  doi : String
  url : String
  tags : List String
  collections : List String
deriving DecidableEq, Repr

/-- Output record of the `search_library` formatter. `key` and `itemType`
are taken bare from the item, so they stay optional (undefined propagates). -/
structure FormattedSearchItem where
  title : String
  authors : String
  date : String
  key : Option String
  itemType : Option String
  abstractNote : String
deriving DecidableEq, Repr

/-- Output record of the `get_recent` formatter. -/
structure FormattedRecentItem where
  title : String
  authors : String
  dateAdded : String
  key : Option String
  itemType : Option String
deriving DecidableEq, Repr

/-- The per-item projection inside the `get_collection_items` handler. -/
def formatCollectionItem (item : ZoteroItem) : FormattedCollectionItem where
  title := jsOr item.title "Untitled"
  authors := formatAuthors item.creators
  date := jsOr item.date "No date"
  key := jsOr item.key "No key"
  itemType := jsOr item.itemType "Unknown type"
  abstractNote := jsOr item.abstractNote "No abstract available"
  tags := (item.tags.map (fun ts => (ts.map ZoteroTag.tag).filter (fun t => decide (t ≠ "")))).getD []
  doi := jsOrNull item.DOI
  url := jsOrNull item.url
  publicationTitle := jsOrNull item.publicationTitle

/-- The projection inside the `get_item_details` handler (its `tags` map has
no `filter(Boolean)` step, unlike the collection formatter). -/
def formatItemDetails (item : ZoteroItem) : FormattedItemDetails where
  title := jsOr item.title "Untitled"
  authors := formatAuthors item.creators
  date := jsOr item.date "No date"
  abstract := jsOr item.abstractNote "No abstract available"
  publicationTitle := jsOr item.publicationTitle "No publication title"
  doi := jsOr item.DOI "No DOI"
  url := jsOr item.url "No URL"
  tags := (item.tags.map (fun ts => ts.map ZoteroTag.tag)).getD []
  collections := item.collections.getD []

/-- The per-item projection inside the `search_library` handler. -/
def formatSearchItem (item : ZoteroItem) : FormattedSearchItem where
  title := jsOr item.title "Untitled"
  authors := formatAuthors item.creators
  date := jsOr item.date "No date"
  key := item.key
  itemType := item.itemType
  abstractNote := jsOr item.abstractNote "No abstract available"

/-- The per-item projection inside the `get_recent` handler. -/
def formatRecentItem (item : ZoteroItem) : FormattedRecentItem where
  title := jsOr item.title "Untitled"
  authors := formatAuthors item.creators
  dateAdded := jsOr item.dateAdded "No date"
  key := item.key
  itemType := item.itemType

/-- A JSON argument value as far as the zod schemas distinguish them. -/
inductive JsArg where
  | str (s : String)
  | num (n : Int)
  | other
deriving DecidableEq, Repr

/-- `GetCollectionItemsSchema = z.object({ collectionKey: z.string() })`:
the field must be present and be a string; any string (the empty one
included) passes. -/
def parseGetCollectionItems (args : List (String × JsArg)) : Except String String :=
  match args.lookup "collectionKey" with
  | some (.str s) => .ok s
  | some _ => .error "collectionKey: Expected string"
  | none => .error "collectionKey: Required"

/-- `GetItemDetailsSchema = z.object({ itemKey: z.string() })`. -/
def parseGetItemDetails (args : List (String × JsArg)) : Except String String :=
  match args.lookup "itemKey" with
  | some (.str s) => .ok s
  | some _ => .error "itemKey: Expected string"
  | none => .error "itemKey: Required"

/-- `GetRecentSchema = z.object({ limit: z.number().optional().default(10) })`:
an absent limit parses to 10, a present number to itself, anything else is a
validation error. -/
def parseGetRecent (args : List (String × JsArg)) : Except String Int :=
  match args.lookup "limit" with
  | some (.num n) => .ok n
  | some _ => .error "limit: Expected number"
  | none => .ok 10

/-- What a handler does before (or instead of) its single remote roundtrip:
either finish locally with a result, or issue the described request. -/
inductive Step (ρ : Type) (σ : Type) where
  | finish (result : ρ)
  | fetch (req : σ)
deriving DecidableEq, Repr

/-- The outcome of the awaited remote call: a payload, or a thrown HTTP
error carrying `error.response.status`. -/
inductive FetchOutcome (α : Type) where
  | ok (data : α)
  | httpError (status : Nat)
deriving DecidableEq, Repr

/-- Outbound request of `get_collection_items`:
`.library("user", userId).collections(collectionKey).items().get()`. -/
structure CollectionItemsRequest where
  collectionKey : String
deriving DecidableEq, Repr

/-- Outbound request of `get_item_details`:
`.library("user", userId).items(itemKey).get()`. -/
structure ItemDetailsRequest where
  itemKey : String
deriving DecidableEq, Repr

/-- Outbound request of `get_recent`:
`.items().get({ sort: "dateAdded", direction: "desc", limit: ... })`. -/
structure RecentRequest where
  sort : String
  direction : String
  limit : Int
deriving DecidableEq, Repr

/-- Result of the `get_collection_items` handler: an advisory
`formatErrorResponse(message, {..., status})` payload, a formatted item
list, or a rethrown error. -/
inductive CollectionItemsResult where
  | advisory (message : String) (status : String)
  | success (items : List FormattedCollectionItem)
  | thrown (status : Nat)
deriving DecidableEq, Repr

/-- Result of the `get_item_details` handler. -/
inductive ItemDetailsResult where
  | advisory (message : String)
  | success (d : FormattedItemDetails)
  | thrown (status : Nat)
deriving DecidableEq, Repr

/-- `get_collection_items` issues its request unconditionally once the zod
parse has succeeded: there is no emptiness or trim check on the key. -/
def get_collection_items_step1 (collectionKey : String) :
    Step CollectionItemsResult CollectionItemsRequest :=
  .fetch ⟨collectionKey⟩

/-- `get_item_details` checks `if (!itemKey?.trim())` and answers the
"Item key is required" advisory before any remote call when the key is blank. -/
def get_item_details_step1 (itemKey : String) :
    Step ItemDetailsResult ItemDetailsRequest :=
  if jsTrim itemKey = "" then .finish (.advisory "Item key is required")
  else .fetch ⟨itemKey⟩

/-- The `get_collection_items` handler after a successful parse, as a
function of the remote outcome. `getData()` yields `none` for a falsy or
non-array payload, otherwise a list whose entries may themselves be falsy
(`none`). A thrown 404 is mapped to the "not accessible" advisory; every
other thrown error is rethrown. -/
def get_collection_items_run (collectionKey : String)
    (outcome : FetchOutcome (Option (List (Option ZoteroItem)))) :
    CollectionItemsResult :=
  match get_collection_items_step1 collectionKey with
  | .finish r => r
  | .fetch _ =>
    match outcome with
    | .ok none => .advisory "Collection is empty" "empty"
    | .ok (some items) =>
      if items.isEmpty then .advisory "Collection is empty" "empty"
      else
        let formatted := (items.filterMap id).map formatCollectionItem
        if formatted.isEmpty then .advisory "No valid items found in collection" "invalid_items"
        else .success formatted
    | .httpError status =>
      if status = 404 then .advisory "Collection is empty or not accessible" "not_found"
      else .thrown status

/-- The `get_item_details` handler after a successful parse. Its catch
block rethrows every thrown error (there is no 404 branch); only a falsy
`getData()` payload produces the "not found" advisory. -/
def get_item_details_run (itemKey : String)
    (outcome : FetchOutcome (Option ZoteroItem)) : ItemDetailsResult :=
  match get_item_details_step1 itemKey with
  | .finish r => r
  | .fetch _ =>
    match outcome with
    | .ok none => .advisory "Item not found or inaccessible"
    | .ok (some item) => .success (formatItemDetails item)
    | .httpError status => .thrown status

/-- The request `get_recent` sends for a parsed `limit`:
`limit: Math.min(limit || 10, 100)` with a fixed sort. -/
def get_recent_request (limit : Int) : RecentRequest :=
  ⟨"dateAdded", "desc", min (if limit = 0 then 10 else limit) 100⟩

/-- The limit field of the outbound `get_recent` request. -/
def get_recent_outboundLimit (limit : Int) : Int :=
  (get_recent_request limit).limit

/-- A serialized JSON field value, as far as the formatter payloads need:
a string, an array of strings, or JSON `null`. -/
inductive JVal where
  | str (s : String)
  | arr (xs : List String)
  | jnull
deriving DecidableEq, Repr

/-- Serialize an `Option String` field whose JS value is a string or `null`
(`x || null`): `null` is kept by `JSON.stringify`. -/
def jvalOrNull (o : Option String) : JVal :=
  match o with
  | some s => .str s
  | none => .jnull

/-- Serialize an `Option String` field whose JS value may be `undefined`:
`JSON.stringify` omits the property entirely, so absent values contribute
no field. -/
def fieldOpt (name : String) (o : Option String) : List (String × JVal) :=
  match o with
  | some s => [(name, .str s)]
  | none => []

/-- `JSON.stringify` view of a `get_collection_items` payload entry. -/
def serializeCollectionItem (f : FormattedCollectionItem) : List (String × JVal) :=
  [("title", .str f.title), ("authors", .str f.authors), ("date", .str f.date),
   ("key", .str f.key), ("itemType", .str f.itemType),
   ("abstractNote", .str f.abstractNote), ("tags", .arr f.tags),
   ("doi", jvalOrNull f.doi), ("url", jvalOrNull f.url),
   ("publicationTitle", jvalOrNull f.publicationTitle)]

/-- `JSON.stringify` view of a `get_item_details` payload. -/
def serializeItemDetails (f : FormattedItemDetails) : List (String × JVal) :=
  [("title", .str f.title), ("authors", .str f.authors), ("date", .str f.date),
   ("abstract", .str f.abstract), ("publicationTitle", .str f.publicationTitle),
   ("doi", .str f.doi), ("url", .str f.url), ("tags", .arr f.tags),
   ("collections", .arr f.collections)]

/-- `JSON.stringify` view of a `search_library` payload entry: `key` and
`itemType` vanish from the payload when undefined. -/
def serializeSearchItem (f : FormattedSearchItem) : List (String × JVal) :=
  [("title", .str f.title), ("authors", .str f.authors), ("date", .str f.date)]
    ++ fieldOpt "key" f.key ++ fieldOpt "itemType" f.itemType
    ++ [("abstractNote", .str f.abstractNote)]

/-- `JSON.stringify` view of a `get_recent` payload entry. -/
def serializeRecentItem (f : FormattedRecentItem) : List (String × JVal) :=
  [("title", .str f.title), ("authors", .str f.authors),
   ("dateAdded", .str f.dateAdded)]
    ++ fieldOpt "key" f.key ++ fieldOpt "itemType" f.itemType

theorem string_data_append (a b : String) : (a ++ b).data = a.data ++ b.data := rfl

theorem string_eq_empty_of_data {s : String} (h : s.data = []) : s = "" := by
  cases s with
  | mk data => cases h; rfl

theorem jsJoin_cons_ne {h : String} (sep : String) (t : List String)
    (hh : h ≠ "") : jsJoin sep (h :: t) ≠ "" := by
  cases t with
  | nil => simpa [jsJoin] using hh
  | cons x xs =>
    intro hcontra
    apply hh
    simp only [jsJoin] at hcontra
    have hd : ((h ++ sep) ++ jsJoin sep (x :: xs)).data = [] := by
      rw [hcontra]
    rw [string_data_append, string_data_append] at hd
    rcases List.append_eq_nil.mp hd with ⟨hd1, -⟩
    rcases List.append_eq_nil.mp hd1 with ⟨hd2, -⟩
    exact string_eq_empty_of_data hd2

theorem jsTrim_eq_empty_of_whitespace {s : String}
    (h : ∀ c ∈ s.data, c.isWhitespace) : jsTrim s = "" := by
  have h1 : s.data.dropWhile Char.isWhitespace = [] :=
    List.dropWhile_eq_nil_iff.mpr h
  unfold jsTrim trimChars
  rw [h1]
  rfl

/-- C5: in each formatter, the authors field joins each creator's first and
last name with one space, trims, drops creators whose trimmed name is empty,
joins the survivors with ", ", and falls back to "No authors listed" when no
names remain (an absent creator list included). -/
theorem formatAuthors_matches_spec (cs : List ZoteroCreator) (item : ZoteroItem) :
    formatAuthors (some cs) = specAuthors cs ∧
    formatAuthors none = "No authors listed" ∧
    (formatCollectionItem item).authors = formatAuthors item.creators ∧
    (formatItemDetails item).authors = formatAuthors item.creators ∧
    (formatSearchItem item).authors = formatAuthors item.creators ∧
    (formatRecentItem item).authors = formatAuthors item.creators := by
  refine ⟨?_, rfl, rfl, rfl, rfl, rfl⟩
  cases hn : (cs.map creatorName).filter (fun n => decide (n ≠ "")) with
  | nil =>
    simp only [formatAuthors, specAuthors]
    rw [hn]
    simp [jsJoin]
  | cons h t =>
    have hmem : h ∈ (cs.map creatorName).filter (fun n => decide (n ≠ "")) := by
      rw [hn]; exact List.mem_cons_self h t
    have hh : h ≠ "" := by
      have := (List.mem_filter.mp hmem).2
      simpa using this
    have hj := jsJoin_cons_ne ", " t hh
    simp only [formatAuthors, specAuthors]
    rw [hn, if_neg hj, if_neg (by simp : ¬(h :: t = ([] : List String)))]

/-- C9: a creator carrying only an institutional `name` (no first/last name)
is silently dropped by the authors expression — it never reads the `name`
field — so an all-institutional creator list formats to "No authors listed". -/
theorem nameOnly_creators_dropped (cs : List ZoteroCreator) :
    formatAuthors (some (cs.map (fun c => { c with name := none }))) =
      formatAuthors (some cs) ∧
    ((∀ c ∈ cs, c.firstName = none ∧ c.lastName = none) →
      formatAuthors (some cs) = "No authors listed") := by
  constructor
  · have hc : ∀ c : ZoteroCreator, creatorName { c with name := none } = creatorName c :=
      fun c => rfl
    simp [formatAuthors, List.map_map, Function.comp_def, hc]
  · intro hall
    have hfil : (cs.map creatorName).filter (fun n => decide (n ≠ "")) = [] := by
      apply List.filter_eq_nil_iff.mpr
      intro a ha
      rcases List.mem_map.mp ha with ⟨c, hcmem, rfl⟩
      rcases hall c hcmem with ⟨h1, h2⟩
      have hcn : creatorName c = "" := by
        unfold creatorName
        rw [h1, h2]
        rfl
      simp [hcn]
    simp only [formatAuthors]
    rw [hfil]
    simp [jsJoin]

theorem nameOnly_creators_dropped_witness :
    formatAuthors (some [⟨none, none, some "ACME Corporation", some "author"⟩]) =
      "No authors listed" :=
  (nameOnly_creators_dropped [⟨none, none, some "ACME Corporation", some "author"⟩]).2
    (by decide)

/-- C7: a blank (empty or all-whitespace) itemKey makes `get_item_details`
finish with the "Item key is required" advisory without issuing any remote
request, whatever the remote would have answered. -/
theorem get_item_details_blank_key_no_fetch (itemKey : String)
    (h : ∀ c ∈ itemKey.data, c.isWhitespace) :
    get_item_details_step1 itemKey = .finish (.advisory "Item key is required") ∧
    ∀ outcome, get_item_details_run itemKey outcome =
      .advisory "Item key is required" := by
  have ht := jsTrim_eq_empty_of_whitespace h
  refine ⟨?_, fun outcome => ?_⟩
  · simp [get_item_details_step1, ht]
  · simp [get_item_details_run, get_item_details_step1, ht]

theorem get_item_details_blank_key_no_fetch_witness :
    get_item_details_step1 "  " =
      .finish (.advisory "Item key is required") :=
  (get_item_details_blank_key_no_fetch "  " (by decide)).1

/-- C3 as stated is false: on a remote 404 ("not found or inaccessible"
condition) `get_item_details` rethrows instead of answering an advisory —
its catch block has no 404 branch. -/
theorem get_item_details_404_throws :
    get_item_details_run "ABCD2345" (.httpError 404) = .thrown 404 := by
  decide

/-- C3 amended: only an absent item reported through a falsy `getData()`
payload yields the "Item not found or inaccessible" advisory; a thrown HTTP
error (404 included) propagates as a rethrown error. -/
theorem get_item_details_absent_item_advisory (itemKey : String)
    (h : jsTrim itemKey ≠ "") :
    get_item_details_run itemKey (.ok none) =
      .advisory "Item not found or inaccessible" ∧
    ∀ s, get_item_details_run itemKey (.httpError s) = .thrown s := by
  refine ⟨?_, fun s => ?_⟩ <;>
    simp [get_item_details_run, get_item_details_step1, h]

theorem get_item_details_absent_item_advisory_witness :
    get_item_details_run "ABCD1234" (.ok none) =
      .advisory "Item not found or inaccessible" :=
  (get_item_details_absent_item_advisory "ABCD1234" (by decide)).1

/-- C2 as stated is false: an empty collectionKey passes the zod validation
(`z.string()` accepts "") and the handler issues the remote request with the
empty key instead of rejecting it. -/
theorem empty_collectionKey_not_rejected :
    parseGetCollectionItems [("collectionKey", .str "")] = .ok "" ∧
    get_collection_items_step1 "" = .fetch ⟨""⟩ :=
  ⟨rfl, rfl⟩

/-- C2 amended: validation only requires `collectionKey` to be present and
be a string — a missing or non-string value is rejected before any remote
request, but every string (the empty one included) passes, and the request
is then issued with that key unconditionally. -/
theorem get_collection_items_validation (args : List (String × JsArg)) (s : String) :
    (args.lookup "collectionKey" = some (.str s) →
      parseGetCollectionItems args = .ok s ∧
      get_collection_items_step1 s = .fetch ⟨s⟩) ∧
    (args.lookup "collectionKey" = none →
      parseGetCollectionItems args = .error "collectionKey: Required") ∧
    (∀ n : Int, args.lookup "collectionKey" = some (.num n) →
      parseGetCollectionItems args = .error "collectionKey: Expected string") := by
  refine ⟨fun h => ⟨?_, rfl⟩, fun h => ?_, fun n h => ?_⟩ <;>
    simp [parseGetCollectionItems, h]

theorem get_collection_items_validation_witness :
    parseGetCollectionItems [("collectionKey", JsArg.str "")] = .ok "" ∧
    get_collection_items_step1 "" = .fetch ⟨""⟩ :=
  (get_collection_items_validation [("collectionKey", JsArg.str "")] "").1 rfl

/-- C8: on a non-empty remote list, falsy entries are dropped before the
projection; when nothing usable remains the handler answers the
"No valid items found in collection" advisory with status "invalid_items",
which differs from the "Collection is empty" advisory (status "empty")
answered for an empty remote list. -/
theorem collection_items_invalid_advisory (key : String)
    (items : List (Option ZoteroItem)) (hne : items ≠ []) :
    get_collection_items_run key (.ok (some items)) =
      (if items.filterMap id = [] then
        CollectionItemsResult.advisory "No valid items found in collection" "invalid_items"
       else .success ((items.filterMap id).map formatCollectionItem)) ∧
    get_collection_items_run key (.ok (some [])) =
      .advisory "Collection is empty" "empty" ∧
    CollectionItemsResult.advisory "No valid items found in collection" "invalid_items" ≠
      .advisory "Collection is empty" "empty" := by
  refine ⟨?_, rfl, by decide⟩
  obtain ⟨a, l, rfl⟩ : ∃ a l, items = a :: l := by
    cases items with
    | nil => exact absurd rfl hne
    | cons a l => exact ⟨a, l, rfl⟩
  simp only [get_collection_items_run, get_collection_items_step1]
  cases hf : (a :: l).filterMap id with
  | nil => simp [hf]
  | cons b bs => simp [hf]

theorem collection_items_invalid_advisory_witness :
    get_collection_items_run "COLL1234" (.ok (some [none])) =
      .advisory "No valid items found in collection" "invalid_items" := by
  have h := (collection_items_invalid_advisory "COLL1234" [none] (by decide)).1
  simpa using h

/-- C4 as stated is false at limit 0: the caller's 0 is at most 100, yet the
outbound request carries limit 10, not 0 (`limit || 10` treats 0 as absent). -/
theorem get_recent_limit_zero_counterexample :
    parseGetRecent [("limit", .num 0)] = .ok 0 ∧
    get_recent_outboundLimit 0 = 10 ∧ (0 : Int) ≤ 100 ∧ (10 : Int) ≠ 0 :=
  ⟨rfl, by decide, by decide, by decide⟩

/-- C4 amended: the outbound limit equals the caller's limit when it is
nonzero and at most 100, equals 100 when the caller's limit exceeds 100, and
equals 10 when the limit is absent or 0. -/
theorem get_recent_limit_clamp (l : Int) :
    (l ≠ 0 → l ≤ 100 → get_recent_outboundLimit l = l) ∧
    (100 < l → get_recent_outboundLimit l = 100) ∧
    parseGetRecent [] = .ok 10 ∧
    get_recent_outboundLimit 10 = 10 ∧
    get_recent_outboundLimit 0 = 10 := by
  refine ⟨fun h0 h100 => ?_, fun hgt => ?_, rfl, by decide, by decide⟩
  · show min (if l = 0 then 10 else l) 100 = l
    rw [if_neg h0]
    exact min_eq_left h100
  · show min (if l = 0 then 10 else l) 100 = 100
    rw [if_neg (by omega : ¬l = 0)]
    exact min_eq_right (le_of_lt hgt)

theorem get_recent_limit_clamp_witness :
    get_recent_outboundLimit 500 = 100 :=
  (get_recent_limit_clamp 500).2.1 (by decide)

/-- C10: an explicit limit of 0 parses like an absent limit and the outbound
request carries the default 10; no outbound limit is ever 0. -/
theorem get_recent_limit_zero_defaults :
    parseGetRecent [("limit", JsArg.num 0)] = .ok 0 ∧
    get_recent_outboundLimit 0 = 10 ∧
    parseGetRecent [] = .ok 10 ∧
    get_recent_outboundLimit 10 = 10 ∧
    ∀ l : Int, get_recent_outboundLimit l ≠ 0 := by
  refine ⟨rfl, by decide, rfl, by decide, fun l => ?_⟩
  show min (if l = 0 then 10 else l) 100 ≠ 0
  by_cases h : l = 0
  · simp [h]
  · rw [if_neg h]
    intro hc
    rcases le_or_lt l 100 with hle | hlt
    · rw [min_eq_left hle] at hc
      exact h hc
    · rw [min_eq_right (le_of_lt hlt)] at hc
      exact absurd hc (by decide)

theorem get_recent_limit_zero_defaults_witness :
    get_recent_outboundLimit 0 = 10 ∧ get_recent_outboundLimit 7 ≠ 0 :=
  ⟨get_recent_limit_zero_defaults.2.1, get_recent_limit_zero_defaults.2.2.2.2 7⟩

/-- C6: `get_item_details` round-trip — with every optional field populated
(non-empty) the formatted payload carries the real values, and with every
optional field absent it carries exactly the documented placeholders, with
empty lists (not placeholder strings) for tags and collections. -/
theorem item_details_round_trip
    (t d ab p doi u : String) (cs : List ZoteroCreator)
    (tags : List ZoteroTag) (cols : List String)
    (ht : t ≠ "") (hd : d ≠ "") (hab : ab ≠ "") (hp : p ≠ "")
    (hdoi : doi ≠ "") (hu : u ≠ "") :
    formatItemDetails
      { key := none, itemType := none, title := some t, creators := some cs,
        abstractNote := some ab, date := some d, DOI := some doi,
        url := some u, tags := some tags, collections := some cols,
        dateAdded := none, publicationTitle := some p } =
      { title := t, authors := formatAuthors (some cs), date := d,
        abstract := ab, publicationTitle := p, doi := doi, url := u,
        tags := tags.map ZoteroTag.tag, collections := cols } ∧
    formatItemDetails emptyItem =
      { title := "Untitled", authors := "No authors listed", date := "No date",
        abstract := "No abstract available",
        publicationTitle := "No publication title", doi := "No DOI",
        url := "No URL", tags := [], collections := [] } := by
  constructor
  · simp [formatItemDetails, jsOr, ht, hd, hab, hp, hdoi, hu]
  · rfl

theorem item_details_round_trip_witness :
    formatItemDetails
      { key := none, itemType := none, title := some "A Title",
        creators := some [⟨some "Ada", some "Lovelace", none, none⟩],
        abstractNote := some "An abstract", date := some "2021",
        DOI := some "10.1000/x", url := some "https://example.org",
        tags := some [⟨"t1", none⟩], collections := some ["C1"],
        dateAdded := none, publicationTitle := some "J. Proofs" } =
      { title := "A Title",
        authors := formatAuthors (some [⟨some "Ada", some "Lovelace", none, none⟩]),
        date := "2021", abstract := "An abstract",
        publicationTitle := "J. Proofs", doi := "10.1000/x",
        url := "https://example.org", tags := ["t1"], collections := ["C1"] } :=
  (item_details_round_trip "A Title" "2021" "An abstract" "J. Proofs"
    "10.1000/x" "https://example.org" [⟨some "Ada", some "Lovelace", none, none⟩]
    [⟨"t1", none⟩] ["C1"] (by decide) (by decide) (by decide) (by decide)
    (by decide) (by decide)).1

/-- C1 as stated is false: the `get_collection_items` payload serializes
`doi` as JSON null when the source DOI is absent, and the `search_library`
and `get_recent` payloads omit `key`/`itemType` entirely when the source
values are undefined. -/
theorem formatted_field_null_or_absent :
    (serializeCollectionItem (formatCollectionItem emptyItem)).lookup "doi" =
      some JVal.jnull ∧
    (serializeSearchItem (formatSearchItem emptyItem)).lookup "key" = none ∧
    (serializeRecentItem (formatRecentItem emptyItem)).lookup "itemType" = none := by
  decide

theorem jvalOrNull_jsOrNull_eq_jnull (o : Option String) :
    jvalOrNull (jsOrNull o) = JVal.jnull ↔ (o = none ∨ o = some "") := by
  rcases o with _ | s
  · simp [jsOrNull, jvalOrNull]
  · by_cases h : s = "" <;> simp [jsOrNull, jvalOrNull, h]

/-- C1 amended: every documented field of `get_item_details` is serialized
and non-null; `get_collection_items` serializes all ten fields, but `doi`,
`url` and `publicationTitle` are null exactly when the source value is
absent or empty; `search_library` and `get_recent` serialize their other
fields non-null but drop `key`/`itemType` from the payload when the source
value is undefined. -/
theorem formatted_field_presence (item : ZoteroItem) :
    ((serializeItemDetails (formatItemDetails item)).map Prod.fst =
      ["title", "authors", "date", "abstract", "publicationTitle", "doi",
       "url", "tags", "collections"]) ∧
    ((serializeItemDetails (formatItemDetails item)).all
      (fun kv => !(kv.2 == JVal.jnull)) = true) ∧
    ((serializeCollectionItem (formatCollectionItem item)).map Prod.fst =
      ["title", "authors", "date", "key", "itemType", "abstractNote", "tags",
       "doi", "url", "publicationTitle"]) ∧
    ((serializeCollectionItem (formatCollectionItem item)).all
      (fun kv => (kv.1 == "doi" || kv.1 == "url" || kv.1 == "publicationTitle")
        || !(kv.2 == JVal.jnull)) = true) ∧
    ((serializeCollectionItem (formatCollectionItem item)).lookup "doi" =
        some JVal.jnull ↔ (item.DOI = none ∨ item.DOI = some "")) ∧
    ((serializeCollectionItem (formatCollectionItem item)).lookup "url" =
        some JVal.jnull ↔ (item.url = none ∨ item.url = some "")) ∧
    ((serializeCollectionItem (formatCollectionItem item)).lookup "publicationTitle" =
        some JVal.jnull ↔
      (item.publicationTitle = none ∨ item.publicationTitle = some "")) ∧
    ((serializeSearchItem (formatSearchItem item)).map Prod.fst =
      ["title", "authors", "date"]
        ++ (match item.key with | some _ => ["key"] | none => [])
        ++ (match item.itemType with | some _ => ["itemType"] | none => [])
        ++ ["abstractNote"]) ∧
    ((serializeSearchItem (formatSearchItem item)).all
      (fun kv => !(kv.2 == JVal.jnull)) = true) ∧
    ((serializeRecentItem (formatRecentItem item)).map Prod.fst =
      ["title", "authors", "dateAdded"]
        ++ (match item.key with | some _ => ["key"] | none => [])
        ++ (match item.itemType with | some _ => ["itemType"] | none => [])) ∧
    ((serializeRecentItem (formatRecentItem item)).all
      (fun kv => !(kv.2 == JVal.jnull)) = true) := by
  obtain ⟨k, it, t, cr, ab, d, doi, url, tg, col, da, pub⟩ := item
  refine ⟨rfl, rfl, rfl, rfl, ?_, ?_, ?_, ?_, ?_, ?_, ?_⟩
  · show some (jvalOrNull (jsOrNull doi)) = some JVal.jnull ↔ _
    rw [Option.some_inj, jvalOrNull_jsOrNull_eq_jnull]
  · show some (jvalOrNull (jsOrNull url)) = some JVal.jnull ↔ _
    rw [Option.some_inj, jvalOrNull_jsOrNull_eq_jnull]
  · show some (jvalOrNull (jsOrNull pub)) = some JVal.jnull ↔ _
    rw [Option.some_inj, jvalOrNull_jsOrNull_eq_jnull]
  · cases k <;> cases it <;> rfl
  · cases k <;> cases it <;> rfl
  · cases k <;> cases it <;> rfl
  · cases k <;> cases it <;> rfl

theorem formatted_field_presence_witness :
    (serializeCollectionItem (formatCollectionItem emptyItem)).lookup "doi" =
        some JVal.jnull ∧
    (serializeSearchItem (formatSearchItem emptyItem)).map Prod.fst =
      ["title", "authors", "date", "abstractNote"] :=
  ⟨((formatted_field_presence emptyItem).2.2.2.2.1).mpr (Or.inl rfl),
    (formatted_field_presence emptyItem).2.2.2.2.2.2.2.1⟩

end McpZotero
